import Mathlib

/-!
# Okta suspend-user action — formal model

Shallow embedding of `src/script.mjs` from the `okta-suspend-user` action:
the `invoke` handler (precondition read, SSWS header rewrite, suspend call,
result construction), the `error` handler, and the URL construction built on
JavaScript's `encodeURIComponent`.

External collaborators (`getBaseURL`, `getAuthorizationHeader` from
`@sgnl-actions/utils`) are out of scope per the spec; they are modelled as
oracle inputs carrying either a resolved string or a thrown error.  The two
`fetch` responses are likewise oracle inputs; the network calls the script
makes are recorded as an explicit trace so that claims about "no mutating
call" or "no network call" are statable.
-/

namespace OktaSuspend

/-- The JSON object fields the script reads from a response body
(`status`, `statusChanged`, `errorSummary`).  A `none` field models a
JavaScript `undefined` (or `null`) property. -/
structure JsonBody where
  status : Option String := none
  statusChanged : Option String := none
  errorSummary : Option String := none
deriving DecidableEq, Repr

/-- Outcome of `await response.json()`: either a parsed body or a thrown
parse error carrying a message. -/
inductive ParseOutcome where
  | ok (body : JsonBody)
  | threw (message : String)
deriving DecidableEq, Repr

/-- The parts of a `fetch` response the script inspects: `ok`, `status`,
and the result of `json()`. -/
structure HttpResponse where
  ok : Bool
  status : Nat
  body : ParseOutcome
deriving DecidableEq, Repr

/-- An error built by `createError(message, statusCode)`. -/
structure ScriptError where
  message : String
  statusCode : Nat
deriving DecidableEq, Repr

/-- The success object returned by `invoke`.  `userId` keeps the raw
(possibly `undefined`) parameter, as the object literal does. -/
structure SuspendResult where
  userId : Option String
  suspended : Bool
  address : String
  suspendedAt : String
  status : String
deriving DecidableEq, Repr

/-- A handler either returns a result or throws an error. -/
inductive InvokeResult where
  | success (r : SuspendResult)
  | failure (e : ScriptError)
deriving DecidableEq, Repr

/-- One network call made via `fetch`: the `getUser` GET or the
`suspendUser` POST, with the URL and the Authorization header used. -/
inductive NetworkCall where
  | get (url : String) (authHeader : String)
  | post (url : String) (authHeader : String)
deriving DecidableEq, Repr

/-- Whether a recorded call is the mutating POST. -/
def NetworkCall.isPost : NetworkCall → Bool
  | .get _ _ => false
  | .post _ _ => true

/-- The Authorization header a recorded call was made with. -/
def NetworkCall.auth : NetworkCall → String
  | .get _ a => a
  | .post _ a => a

/-- Outcome of one of the out-of-scope utility collaborators
(`getBaseURL`, `getAuthorizationHeader`): a resolved string or a thrown
error. -/
inductive UtilResult where
  | ok (value : String)
  | threw (e : ScriptError)
deriving DecidableEq, Repr

/-- The part of the execution context the script inspects directly:
`context.secrets.BEARER_AUTH_TOKEN` (absent for OAuth2-derived modes). -/
structure Context where
  bearerAuthToken : Option String
deriving DecidableEq, Repr

/-- Oracle inputs for one `invoke` run: the two collaborator results, the
responses the two fetches would receive, and the value
`new Date().toISOString()` produces. -/
structure InvokeEnv where
  baseURLResult : UtilResult
  authHeaderResult : UtilResult
  getUserResponse : HttpResponse
  suspendResponse : HttpResponse
  now : String
deriving DecidableEq, Repr

/-- Result of an `invoke` run together with the trace of network calls
made, in order. -/
structure Outcome where
  result : InvokeResult
  calls : List NetworkCall
deriving DecidableEq, Repr

/-- JavaScript truthiness of a possibly-absent string (`undefined`, `null`
and `""` are falsy). -/
def isTruthy : Option String → Bool
  | some s => s != ""
  | none => false

/-- JavaScript `a || b` for a possibly-absent string `a`. -/
def jsOr (a : Option String) (b : String) : String :=
  match a with
  | some s => if s = "" then b else s
  | none => b

/-- JavaScript string coercion of a possibly-absent string value
(template literals and `encodeURIComponent` render `undefined` as
`"undefined"`). -/
def jsToString : Option String → String
  | some s => s
  | none => "undefined"

/-- JavaScript `s.startsWith(p)`. -/
def jsStartsWith (s p : String) : Bool :=
  p.data.isPrefixOf s.data

/-- JavaScript `s.substring(n)`. -/
def jsSubstringFrom (s : String) (n : Nat) : String :=
  String.mk (s.data.drop n)

/-- Uppercase hexadecimal digit, as produced by `encodeURIComponent`. -/
def hexDigitChar : Nat → Char
  | 0 => '0' | 1 => '1' | 2 => '2' | 3 => '3' | 4 => '4'
  | 5 => '5' | 6 => '6' | 7 => '7' | 8 => '8' | 9 => '9'
  | 10 => 'A' | 11 => 'B' | 12 => 'C' | 13 => 'D' | 14 => 'E' | 15 => 'F'
  | _ => '0'

/-- UTF-8 encoding of a code point, as a list of byte values. -/
def utf8Bytes (n : Nat) : List Nat :=
  if n < 0x80 then [n]
  else if n < 0x800 then [0xC0 + n / 0x40, 0x80 + n % 0x40]
  else if n < 0x10000 then [0xE0 + n / 0x1000, 0x80 + n / 0x40 % 0x40, 0x80 + n % 0x40]
  else [0xF0 + n / 0x40000, 0x80 + n / 0x1000 % 0x40, 0x80 + n / 0x40 % 0x40, 0x80 + n % 0x40]

/-- `%XY` percent-encoding of one byte. -/
def percentEncodeByte (b : Nat) : List Char :=
  ['%', hexDigitChar (b / 16), hexDigitChar (b % 16)]

/-- The characters `encodeURIComponent` leaves unescaped:
`A-Z a-z 0-9 - _ . ! ~ * ' ( )`. -/
def isURIUnescaped (c : Char) : Bool :=
  ('A' ≤ c && c ≤ 'Z') || ('a' ≤ c && c ≤ 'z') || ('0' ≤ c && c ≤ '9') ||
  c == '-' || c == '_' || c == '.' || c == '!' || c == '~' || c == '*' ||
  c == Char.ofNat 39 || c == '(' || c == ')'

/-- Encoding of a single character under `encodeURIComponent`. -/
def encodeChar (c : Char) : List Char :=
  if isURIUnescaped c then [c]
  else (utf8Bytes c.toNat).flatMap percentEncodeByte

/-- JavaScript's `encodeURIComponent`. -/
def encodeURIComponent (s : String) : String :=
  String.mk (s.data.flatMap encodeChar)

/-- URL built by the `getUser` helper:
`{baseUrl}/api/v1/users/{encodeURIComponent(userId)}`. -/
def getUserUrl (baseUrl userId : String) : String :=
  baseUrl ++ "/api/v1/users/" ++ encodeURIComponent userId

/-- URL built by the `suspendUser` helper:
`{baseUrl}/api/v1/users/{encodeURIComponent(userId)}/lifecycle/suspend`. -/
def suspendUserUrl (baseUrl userId : String) : String :=
  baseUrl ++ "/api/v1/users/" ++ encodeURIComponent userId ++ "/lifecycle/suspend"

/-- The SSWS rewrite in `invoke` (script.mjs lines 110-113): only when
`context.secrets.BEARER_AUTH_TOKEN` is truthy and the resolved header
starts with `"Bearer "`, strip that prefix and ensure a single
`"SSWS "` prefix on the remaining token. -/
def rewriteAuthHeader (bearerAuthToken : Option String) (authHeader : String) : String :=
  if isTruthy bearerAuthToken && jsStartsWith authHeader "Bearer " then
    let token := jsSubstringFrom authHeader 7
    if jsStartsWith token "SSWS " then token else "SSWS " ++ token
  else authHeader

/-- The `invoke` handler of `src/script.mjs`, as a function of the raw
`userId` parameter, the context secrets, and the oracle environment.
Flow: resolve base URL and auth header (collaborators may throw), apply
the SSWS rewrite, GET the user, fail on a non-ok read or unparseable
body, short-circuit when already SUSPENDED, reject a non-ACTIVE status
with a 400, POST the suspend call, convert a non-ok POST to an error
using `errorSummary` when truthy, and otherwise return success with the
POST body's `status` defaulted to `"SUSPENDED"`. -/
def invoke (userId : Option String) (ctx : Context) (env : InvokeEnv) : Outcome :=
  match env.baseURLResult with
  | .threw e => ⟨.failure e, []⟩
  | .ok baseUrl =>
  match env.authHeaderResult with
  | .threw e => ⟨.failure e, []⟩
  | .ok rawHeader =>
  let authHeader := rewriteAuthHeader ctx.bearerAuthToken rawHeader
  let uid := jsToString userId
  let getCall := NetworkCall.get (getUserUrl baseUrl uid) authHeader
  let r := env.getUserResponse
  if !r.ok then
    ⟨.failure ⟨"Cannot fetch information about User: HTTP " ++ toString r.status, r.status⟩,
      [getCall]⟩
  else
  match r.body with
  | .threw m => ⟨.failure ⟨"Cannot parse user data: " ++ m, 500⟩, [getCall]⟩
  | .ok userData =>
  if userData.status = some "SUSPENDED" then
    ⟨.success ⟨userId, true, baseUrl, jsOr userData.statusChanged env.now,
        jsToString userData.status⟩,
      [getCall]⟩
  else if userData.status ≠ some "ACTIVE" then
    ⟨.failure ⟨"User must have an ACTIVE status to be suspended. User is " ++
        jsToString userData.status, 400⟩,
      [getCall]⟩
  else
  let postCall := NetworkCall.post (suspendUserUrl baseUrl uid) authHeader
  let s := env.suspendResponse
  if !s.ok then
    let fallbackMsg := "Failed to suspend user: HTTP " ++ toString s.status
    let msg :=
      match s.body with
      | .threw _ => fallbackMsg
      | .ok errorBody =>
        if isTruthy errorBody.errorSummary then
          "Failed to suspend user: " ++ jsToString errorBody.errorSummary
        else fallbackMsg
    ⟨.failure ⟨msg, s.status⟩, [getCall, postCall]⟩
  else
  let suspendedUserData : JsonBody :=
    match s.body with
    | .ok d => d
    | .threw _ => {}
  ⟨.success ⟨userId, true, baseUrl, env.now, jsOr suspendedUserData.status "SUSPENDED"⟩,
    [getCall, postCall]⟩

/-- Result of one `error`-handler run: the thrown-or-returned result, the
trace of network calls made, the backoff sleeps performed (milliseconds),
and the console messages. -/
structure HandlerOutcome where
  result : InvokeResult
  calls : List NetworkCall
  sleepsMs : List Nat
  logs : List String
deriving DecidableEq, Repr

/-- The `error` handler of `src/script.mjs` (lines 198-205): logs the
failure and re-throws the original error unchanged.  It makes no network
call and performs no backoff sleep; retries for transient statuses are
left to the outer framework. -/
def errorHandler (userId : Option String) (e : ScriptError) : HandlerOutcome :=
  { result := .failure e
    calls := []
    sleepsMs := []
    logs := ["User suspension failed for user " ++ jsToString userId ++ ": " ++ e.message] }

/-! ## Helper lemmas about the string model -/

theorem strDataAppend (a b : String) : (a ++ b).data = a.data ++ b.data := by
  cases a
  cases b
  rfl

theorem strMkData (s : String) : String.mk s.data = s := rfl

theorem isPrefixOf_append_self (l₁ l₂ : List Char) : l₁.isPrefixOf (l₁ ++ l₂) = true := by
  induction l₁ with
  | nil => simp [List.isPrefixOf]
  | cons a as ih => simp [List.isPrefixOf, ih]

theorem drop_length_append (l₁ l₂ : List Char) : (l₁ ++ l₂).drop l₁.length = l₂ := by
  induction l₁ with
  | nil => rfl
  | cons a as ih => simp [ih]

theorem not_bearer_of_ssws (l : List Char)
    (h : List.isPrefixOf "SSWS ".data l = true) :
    List.isPrefixOf "Bearer ".data l = false := by
  cases l with
  | nil => simp [List.isPrefixOf] at h
  | cons a l =>
    have ha : a = 'S' := by
      simp only [show ("SSWS ".data) = 'S' :: 'S' :: 'W' :: 'S' :: ' ' :: ([] : List Char)
          from rfl, List.isPrefixOf, Bool.and_eq_true, beq_iff_eq] at h
      exact h.1.symm
    subst ha
    simp [show ("Bearer ".data) = 'B' :: 'e' :: 'a' :: 'r' :: 'e' :: 'r' :: ' ' ::
        ([] : List Char) from rfl, List.isPrefixOf]

theorem hexDigitChar_mem (n : Nat) : hexDigitChar n ∈ "0123456789ABCDEF".data := by
  unfold hexDigitChar
  split <;> decide

theorem mem_hexChars_safe (c : Char) (h : c ∈ "0123456789ABCDEF".data) :
    c ≠ '/' ∧ c ≠ '@' := by
  fin_cases h <;> decide

theorem percentEncodeByte_safe (b : Nat) (c : Char) (h : c ∈ percentEncodeByte b) :
    c ≠ '/' ∧ c ≠ '@' := by
  simp only [percentEncodeByte, List.mem_cons, List.not_mem_nil, or_false] at h
  rcases h with rfl | rfl | rfl
  · decide
  · exact mem_hexChars_safe _ (hexDigitChar_mem _)
  · exact mem_hexChars_safe _ (hexDigitChar_mem _)

theorem encodeChar_safe (a c : Char) (h : c ∈ encodeChar a) : c ≠ '/' ∧ c ≠ '@' := by
  unfold encodeChar at h
  split at h
  case isTrue hu =>
    simp only [List.mem_singleton] at h
    subst h
    constructor <;> intro hc <;> subst hc <;> exact absurd hu (by decide)
  case isFalse =>
    simp only [List.mem_flatMap] at h
    obtain ⟨b, _, hc⟩ := h
    exact percentEncodeByte_safe b c hc

theorem encodeURIComponent_safe (s : String) :
    '/' ∉ (encodeURIComponent s).data ∧ '@' ∉ (encodeURIComponent s).data := by
  constructor <;>
  · intro h
    have h' : _ ∈ s.data.flatMap encodeChar := h
    simp only [List.mem_flatMap] at h'
    obtain ⟨a, _, hc⟩ := h'
    first
      | exact (encodeChar_safe a _ hc).1 rfl
      | exact (encodeChar_safe a _ hc).2 rfl

theorem rewrite_result_cases (b : Option String) (h : String) :
    rewriteAuthHeader b h = h ∨ jsStartsWith (rewriteAuthHeader b h) "SSWS " = true := by
  unfold rewriteAuthHeader
  split
  · dsimp only
    split
    case isTrue h2 => exact Or.inr h2
    case isFalse h2 =>
      right
      unfold jsStartsWith
      rw [strDataAppend]
      exact isPrefixOf_append_self _ _
  · exact Or.inl rfl

theorem invoke_calls_auth (uid : Option String) (ctx : Context) (env : InvokeEnv)
    (rawHeader : String) (ha : env.authHeaderResult = .ok rawHeader) :
    ((invoke uid ctx env).calls.all fun c =>
      c.auth == rewriteAuthHeader ctx.bearerAuthToken rawHeader) = true := by
  obtain ⟨br, ar, gr, sr, now⟩ := env
  simp only at ha
  subst ha
  simp only [invoke]
  repeat' split
  all_goals simp [NetworkCall.auth]

/-! ## Claim theorems -/

/-- **C2, counterexample.**  The claim says that on a 429 error the error
handler waits the rate-limit backoff (default 30000 ms) and performs
exactly one additional invocation attempt, returning a success annotated
`recoveryMethod: rate_limit_retry` when the retry returns 200.  On the
code, the error handler invoked with a concrete 429 error performs no
sleep and no network call at all, and its outcome is the re-thrown
original error rather than any success result. -/
theorem errorHandler_429_counterexample :
    (errorHandler (some "user123") ⟨"Failed to suspend user: HTTP 429", 429⟩).sleepsMs = [] ∧
    (errorHandler (some "user123") ⟨"Failed to suspend user: HTTP 429", 429⟩).calls = [] ∧
    (errorHandler (some "user123") ⟨"Failed to suspend user: HTTP 429", 429⟩).result =
      .failure ⟨"Failed to suspend user: HTTP 429", 429⟩ := by
  exact ⟨rfl, rfl, rfl⟩

/-- **C2, amended.**  For every invocation of the error handler with an
error of status 429, the handler performs no backoff and no retry: it
logs the failure and re-throws the original error unchanged, leaving
retries for transient statuses to the outer framework. -/
theorem errorHandler_429_rethrows (u : Option String) (e : ScriptError)
    (_h : e.statusCode = 429) :
    errorHandler u e =
      ⟨.failure e, [], [],
        ["User suspension failed for user " ++ jsToString u ++ ": " ++ e.message]⟩ := by
  rfl

/-- Witness for the amended C2 theorem at a concrete 429 error. -/
theorem errorHandler_429_rethrows_witness :
    errorHandler (some "user123") ⟨"Rate limited", 429⟩ =
      ⟨.failure ⟨"Rate limited", 429⟩, [], [],
        ["User suspension failed for user user123: Rate limited"]⟩ :=
  errorHandler_429_rethrows (some "user123") ⟨"Rate limited", 429⟩ rfl

/-- **C3, counterexample.**  The claim says the error handler surfaces a
terminal error whose message is
`Unrecoverable error suspending user <id>: <original message>`.  On the
code, for the concrete non-retryable error 401 with message
`Unauthorized: Invalid API token` and user `user789`, the surfaced error
is the original error itself, whose message is not the wrapped form. -/
theorem errorHandler_message_counterexample :
    (errorHandler (some "user789") ⟨"Unauthorized: Invalid API token", 401⟩).result =
      .failure ⟨"Unauthorized: Invalid API token", 401⟩ ∧
    "Unauthorized: Invalid API token" ≠
      "Unrecoverable error suspending user user789: Unauthorized: Invalid API token" := by
  exact ⟨rfl, by decide⟩

/-- **C3, amended.**  For every invocation of the error handler,
retryable or not, the handler re-throws the original error with its
original message unmodified (no `Unrecoverable error ...` wrapping), and
no retry is ever attempted: the call trace and the sleep trace are both
empty. -/
theorem errorHandler_rethrows_original (u : Option String) (e : ScriptError) :
    (errorHandler u e).result = .failure e ∧
    (errorHandler u e).calls = [] ∧
    (errorHandler u e).sleepsMs = [] :=
  ⟨rfl, rfl, rfl⟩

/-- **C4.**  When the precondition read succeeds and its body reports
status `SUSPENDED`, `invoke` short-circuits: it returns a success result
with `suspended: true`, `suspendedAt` equal to the existing
`statusChanged` value (falling back to the current time when that value
is absent or empty), and status `SUSPENDED`, having made only the single
GET call — no mutating POST occurs. -/
theorem invoke_short_circuit_suspended
    (uid : String) (ctx : Context) (env : InvokeEnv)
    (baseUrl rawHeader : String) (d : JsonBody) (st : Nat)
    (hb : env.baseURLResult = .ok baseUrl)
    (ha : env.authHeaderResult = .ok rawHeader)
    (hr : env.getUserResponse = ⟨true, st, .ok d⟩)
    (hs : d.status = some "SUSPENDED") :
    invoke (some uid) ctx env =
      ⟨.success ⟨some uid, true, baseUrl, jsOr d.statusChanged env.now, "SUSPENDED"⟩,
        [NetworkCall.get (getUserUrl baseUrl uid)
          (rewriteAuthHeader ctx.bearerAuthToken rawHeader)]⟩ := by
  obtain ⟨br, ar, gr, sr, now⟩ := env
  simp only at hb ha hr
  subst hb ha hr
  simp [invoke, hs, jsToString]

/-- Witness for C4: a suspended account with an existing `statusChanged`
timestamp is reported back as-is, with a single GET in the trace. -/
theorem invoke_short_circuit_suspended_witness :
    invoke (some "u1") ⟨none⟩
      ⟨.ok "https://b", .ok "H",
        ⟨true, 200, .ok ⟨some "SUSPENDED", some "2024-01-15T10:30:00.000Z", none⟩⟩,
        ⟨true, 200, .threw "x"⟩, "NOW"⟩ =
      ⟨.success ⟨some "u1", true, "https://b", "2024-01-15T10:30:00.000Z", "SUSPENDED"⟩,
        [NetworkCall.get "https://b/api/v1/users/u1" "H"]⟩ := by
  have h := invoke_short_circuit_suspended "u1" ⟨none⟩
    ⟨.ok "https://b", .ok "H",
      ⟨true, 200, .ok ⟨some "SUSPENDED", some "2024-01-15T10:30:00.000Z", none⟩⟩,
      ⟨true, 200, .threw "x"⟩, "NOW"⟩
    "https://b" "H" ⟨some "SUSPENDED", some "2024-01-15T10:30:00.000Z", none⟩ 200
    rfl rfl rfl rfl
  exact h.trans (by decide)

/-- **C6.**  When the precondition read succeeds with a body whose status
is neither `SUSPENDED` nor `ACTIVE`, `invoke` fails with an error of
statusCode 400 whose message names the offending status, and the call
trace holds only the single GET — no mutating POST is made. -/
theorem invoke_rejects_ineligible_status
    (uid : String) (ctx : Context) (env : InvokeEnv)
    (baseUrl rawHeader stat : String) (d : JsonBody) (st : Nat)
    (hb : env.baseURLResult = .ok baseUrl)
    (ha : env.authHeaderResult = .ok rawHeader)
    (hr : env.getUserResponse = ⟨true, st, .ok d⟩)
    (hs : d.status = some stat)
    (h1 : stat ≠ "SUSPENDED") (h2 : stat ≠ "ACTIVE") :
    invoke (some uid) ctx env =
      ⟨.failure ⟨"User must have an ACTIVE status to be suspended. User is " ++ stat, 400⟩,
        [NetworkCall.get (getUserUrl baseUrl uid)
          (rewriteAuthHeader ctx.bearerAuthToken rawHeader)]⟩ := by
  obtain ⟨br, ar, gr, sr, now⟩ := env
  simp only at hb ha hr
  subst hb ha hr
  simp [invoke, hs, h1, h2, jsToString]

/-- Witness for C6 at the spec's example status `DEPROVISIONED`. -/
theorem invoke_rejects_ineligible_status_witness :
    invoke (some "u2") ⟨none⟩
      ⟨.ok "https://b", .ok "H",
        ⟨true, 200, .ok ⟨some "DEPROVISIONED", none, none⟩⟩,
        ⟨true, 200, .threw "x"⟩, "NOW"⟩ =
      ⟨.failure
          ⟨"User must have an ACTIVE status to be suspended. User is DEPROVISIONED", 400⟩,
        [NetworkCall.get "https://b/api/v1/users/u2" "H"]⟩ := by
  have h := invoke_rejects_ineligible_status "u2" ⟨none⟩
    ⟨.ok "https://b", .ok "H",
      ⟨true, 200, .ok ⟨some "DEPROVISIONED", none, none⟩⟩,
      ⟨true, 200, .threw "x"⟩, "NOW"⟩
    "https://b" "H" "DEPROVISIONED" ⟨some "DEPROVISIONED", none, none⟩ 200
    rfl rfl rfl rfl (by decide) (by decide)
  exact h.trans (by decide)

/-- **C9.**  When the precondition read reports `ACTIVE` and the mutating
POST returns a success (`ok`) response whose body cannot be parsed as
JSON, `invoke` still returns a success result with `suspended: true`,
falling back to the default `SUSPENDED` status instead of failing on the
parse error of the non-essential body. -/
theorem invoke_succeeds_on_unparseable_suspend_body
    (uid : String) (ctx : Context) (env : InvokeEnv)
    (baseUrl rawHeader m : String) (d : JsonBody) (st₁ st₂ : Nat)
    (hb : env.baseURLResult = .ok baseUrl)
    (ha : env.authHeaderResult = .ok rawHeader)
    (hr : env.getUserResponse = ⟨true, st₁, .ok d⟩)
    (hact : d.status = some "ACTIVE")
    (hs : env.suspendResponse = ⟨true, st₂, .threw m⟩) :
    invoke (some uid) ctx env =
      ⟨.success ⟨some uid, true, baseUrl, env.now, "SUSPENDED"⟩,
        [NetworkCall.get (getUserUrl baseUrl uid)
            (rewriteAuthHeader ctx.bearerAuthToken rawHeader),
          NetworkCall.post (suspendUserUrl baseUrl uid)
            (rewriteAuthHeader ctx.bearerAuthToken rawHeader)]⟩ := by
  obtain ⟨br, ar, gr, sr, now⟩ := env
  simp only at hb ha hr hs
  subst hb ha hr hs
  simp [invoke, hact, jsOr, jsToString]

/-- Witness for C9: an `ok` suspend response that throws on `json()`
still yields a success with the default `SUSPENDED` status. -/
theorem invoke_succeeds_on_unparseable_suspend_body_witness :
    invoke (some "u3") ⟨none⟩
      ⟨.ok "https://b", .ok "H",
        ⟨true, 200, .ok ⟨some "ACTIVE", none, none⟩⟩,
        ⟨true, 200, .threw "Invalid JSON"⟩, "NOW"⟩ =
      ⟨.success ⟨some "u3", true, "https://b", "NOW", "SUSPENDED"⟩,
        [NetworkCall.get "https://b/api/v1/users/u3" "H",
          NetworkCall.post "https://b/api/v1/users/u3/lifecycle/suspend" "H"]⟩ := by
  have h := invoke_succeeds_on_unparseable_suspend_body "u3" ⟨none⟩
    ⟨.ok "https://b", .ok "H",
      ⟨true, 200, .ok ⟨some "ACTIVE", none, none⟩⟩,
      ⟨true, 200, .threw "Invalid JSON"⟩, "NOW"⟩
    "https://b" "H" "Invalid JSON" ⟨some "ACTIVE", none, none⟩ 200 200
    rfl rfl rfl rfl rfl
  exact h.trans (by decide)

/-- **C1** (code bug).  The claim — backed by the repository's own test
suite, which mocks a verification GET after the POST — says success is
never reported without a fresh read confirming `SUSPENDED` (short-circuit
aside), and that a `SuspendResult` is returned only when the verified
status equals `SUSPENDED`.  The code violates this: with a precondition
read reporting `ACTIVE` and a 2xx POST whose body still reports
`ACTIVE`, `invoke` returns `suspended: true` with status `"ACTIVE"`,
making no read after the mutating call (the only GET in the trace is the
precondition read, which returned `ACTIVE`). -/
theorem invoke_success_without_verification_read :
    invoke (some "user123") ⟨some "SSWS test-token"⟩
      ⟨.ok "https://example.okta.com", .ok "SSWS test-token",
        ⟨true, 200, .ok ⟨some "ACTIVE", none, none⟩⟩,
        ⟨true, 200, .ok ⟨some "ACTIVE", none, none⟩⟩,
        "2024-01-15T10:30:00.000Z"⟩ =
      ⟨.success ⟨some "user123", true, "https://example.okta.com",
          "2024-01-15T10:30:00.000Z", "ACTIVE"⟩,
        [NetworkCall.get "https://example.okta.com/api/v1/users/user123" "SSWS test-token",
          NetworkCall.post
            "https://example.okta.com/api/v1/users/user123/lifecycle/suspend"
            "SSWS test-token"]⟩ ∧
    "ACTIVE" ≠ "SUSPENDED" := by
  exact ⟨by decide, by decide⟩

/-- **C7** (code bug).  The claim — and the README's "Validate Input"
step — say a missing identifier aborts with a fatal ValidationError
before any network call (call count = 0).  The code performs no
identifier validation at all: with `userId` absent and resolution
succeeding, `invoke` issues the GET (and then the POST) against the
JavaScript string coercion `undefined` of the missing value, and even
reports success; the call trace is not empty. -/
theorem invoke_missing_userId_makes_network_calls :
    invoke none ⟨some "SSWS test-token"⟩
      ⟨.ok "https://example.okta.com", .ok "SSWS test-token",
        ⟨true, 200, .ok ⟨some "ACTIVE", none, none⟩⟩,
        ⟨true, 200, .ok ⟨some "SUSPENDED", none, none⟩⟩, "NOW"⟩ =
      ⟨.success ⟨none, true, "https://example.okta.com", "NOW", "SUSPENDED"⟩,
        [NetworkCall.get "https://example.okta.com/api/v1/users/undefined" "SSWS test-token",
          NetworkCall.post
            "https://example.okta.com/api/v1/users/undefined/lifecycle/suspend"
            "SSWS test-token"]⟩ ∧
    (invoke none ⟨some "SSWS test-token"⟩
      ⟨.ok "https://example.okta.com", .ok "SSWS test-token",
        ⟨true, 200, .ok ⟨some "ACTIVE", none, none⟩⟩,
        ⟨true, 200, .ok ⟨some "SUSPENDED", none, none⟩⟩, "NOW"⟩).calls ≠ [] := by
  exact ⟨by decide, by decide⟩

/-- **C8.**  The Bearer-to-SSWS rewrite fires only when
`context.secrets.BEARER_AUTH_TOKEN` is truthy and the resolved header
starts with `Bearer `; then `Bearer <token>` becomes `SSWS <token>`.
When the bearer-token secret is absent (OAuth2-derived credentials), the
resolved header is passed through unchanged to every network call
`invoke` makes. -/
theorem ssws_rewrite_gated :
    (∀ (b : Option String) (t : String), isTruthy b = true →
      jsStartsWith t "SSWS " = false →
      rewriteAuthHeader b ("Bearer " ++ t) = "SSWS " ++ t) ∧
    (∀ (uid : Option String) (ctx : Context) (env : InvokeEnv) (rawHeader : String),
      ctx.bearerAuthToken = none →
      env.authHeaderResult = .ok rawHeader →
      ((invoke uid ctx env).calls.all fun c => c.auth == rawHeader) = true) := by
  constructor
  · intro b t hb ht
    have hstart : jsStartsWith ("Bearer " ++ t) "Bearer " = true := by
      unfold jsStartsWith
      rw [strDataAppend]
      exact isPrefixOf_append_self _ _
    have htok : jsSubstringFrom ("Bearer " ++ t) 7 = t := by
      unfold jsSubstringFrom
      rw [strDataAppend, show (7 : Nat) = "Bearer ".data.length from rfl,
        drop_length_append]
    simp [rewriteAuthHeader, hb, hstart, htok, ht]
  · intro uid ctx env rawHeader hnone ha
    have h := invoke_calls_auth uid ctx env rawHeader ha
    rw [hnone] at h
    simpa [rewriteAuthHeader, isTruthy] using h

/-- Witness for C8: a concrete bearer-mode rewrite and a concrete
OAuth2-mode pass-through of the header to both calls. -/
theorem ssws_rewrite_gated_witness :
    rewriteAuthHeader (some "api-token") ("Bearer " ++ "abc") = "SSWS " ++ "abc" ∧
    ((invoke (some "u4") ⟨none⟩
      ⟨.ok "https://b", .ok "Bearer oauth-token",
        ⟨true, 200, .ok ⟨some "ACTIVE", none, none⟩⟩,
        ⟨true, 200, .ok ⟨some "SUSPENDED", none, none⟩⟩, "NOW"⟩).calls.all
      fun c => c.auth == "Bearer oauth-token") = true :=
  ⟨ssws_rewrite_gated.1 (some "api-token") "abc" (by decide) (by decide),
    ssws_rewrite_gated.2 (some "u4") ⟨none⟩
      ⟨.ok "https://b", .ok "Bearer oauth-token",
        ⟨true, 200, .ok ⟨some "ACTIVE", none, none⟩⟩,
        ⟨true, 200, .ok ⟨some "SUSPENDED", none, none⟩⟩, "NOW"⟩
      "Bearer oauth-token" rfl rfl⟩

/-- **C10.**  The SSWS rewrite never double-prefixes: with the
bearer-token secret truthy, a header `Bearer SSWS <t>` rewrites to
exactly `SSWS <t>` (the existing prefix is kept, not stacked), and
applying the rewrite to an already-rewritten header changes nothing
(idempotence). -/
theorem ssws_rewrite_no_double :
    (∀ (b : Option String) (t : String), isTruthy b = true →
      rewriteAuthHeader b ("Bearer SSWS " ++ t) = "SSWS " ++ t) ∧
    (∀ (b : Option String) (h : String),
      rewriteAuthHeader b (rewriteAuthHeader b h) = rewriteAuthHeader b h) := by
  constructor
  · intro b t hb
    have hsplit : ("Bearer SSWS " ++ t).data = "Bearer ".data ++ ("SSWS ".data ++ t.data) := by
      rw [strDataAppend, show ("Bearer SSWS ".data) = "Bearer ".data ++ "SSWS ".data
        from rfl, List.append_assoc]
    have hstart : jsStartsWith ("Bearer SSWS " ++ t) "Bearer " = true := by
      unfold jsStartsWith
      rw [hsplit]
      exact isPrefixOf_append_self _ _
    have htok : jsSubstringFrom ("Bearer SSWS " ++ t) 7 = "SSWS " ++ t := by
      unfold jsSubstringFrom
      rw [hsplit, show (7 : Nat) = "Bearer ".data.length from rfl, drop_length_append,
        ← strDataAppend]
    have hss : jsStartsWith ("SSWS " ++ t) "SSWS " = true := by
      unfold jsStartsWith
      rw [strDataAppend]
      exact isPrefixOf_append_self _ _
    simp [rewriteAuthHeader, hb, hstart, htok, hss]
  · intro b h
    rcases rewrite_result_cases b h with heq | hss
    · rw [heq]
      exact heq
    · generalize hgen : rewriteAuthHeader b h = r at hss ⊢
      have hnb : jsStartsWith r "Bearer " = false := not_bearer_of_ssws r.data hss
      simp [rewriteAuthHeader, hnb]

/-- Witness for C10 at a concrete already-prefixed header. -/
theorem ssws_rewrite_no_double_witness :
    rewriteAuthHeader (some "api-token") ("Bearer SSWS " ++ "tok") = "SSWS " ++ "tok" ∧
    rewriteAuthHeader (some "api-token")
        (rewriteAuthHeader (some "api-token") "Bearer tok") =
      rewriteAuthHeader (some "api-token") "Bearer tok" :=
  ⟨ssws_rewrite_no_double.1 (some "api-token") "tok" (by decide),
    ssws_rewrite_no_double.2 (some "api-token") "Bearer tok"⟩

/-- **C5, counterexample.**  The claim says the identifier encoding
"encodes every reserved character, including `/`, `@`, `.`, and `..`".
The code uses `encodeURIComponent`, which leaves `.` (and hence `..`)
unencoded: on the spec's own example the dots survive verbatim, and the
identifiers `.` and `..` are not percent-encoded at all. -/
theorem encodeURIComponent_dot_counterexample :
    encodeURIComponent "user@test.com/../../admin" = "user%40test.com%2F..%2F..%2Fadmin" ∧
    encodeURIComponent "." = "." ∧
    encodeURIComponent ".." = ".." := by
  exact ⟨by decide, by decide, by decide⟩

/-- **C5, amended.**  For every identifier, both constructed request
paths percent-encode the identifier with `encodeURIComponent`, which
escapes every character outside `A-Z a-z 0-9 - _ . ! ~ * ' ( )` — in
particular `/` and `@` — so the encoded identifier contains neither `/`
nor `@` and no path segment boundary is altered: the GET path has
exactly the base address's `/`-separators plus the four fixed ones, and
the POST path those plus the two of `/lifecycle/suspend`.  `.` and `..`
are left unencoded. -/
theorem encoded_paths_preserve_segments (baseUrl userId : String) :
    '/' ∉ (encodeURIComponent userId).data ∧
    '@' ∉ (encodeURIComponent userId).data ∧
    (getUserUrl baseUrl userId).data.count '/' = baseUrl.data.count '/' + 4 ∧
    (suspendUserUrl baseUrl userId).data.count '/' = baseUrl.data.count '/' + 6 := by
  obtain ⟨h1, h2⟩ := encodeURIComponent_safe userId
  have hz : (encodeURIComponent userId).data.count '/' = 0 :=
    List.count_eq_zero.mpr h1
  refine ⟨h1, h2, ?_, ?_⟩
  · unfold getUserUrl
    rw [strDataAppend, strDataAppend, List.count_append, List.count_append, hz,
      show ("/api/v1/users/".data.count '/') = 4 from by decide]
  · unfold suspendUserUrl
    rw [strDataAppend, strDataAppend, strDataAppend, List.count_append,
      List.count_append, List.count_append, hz,
      show ("/api/v1/users/".data.count '/') = 4 from by decide,
      show ("/lifecycle/suspend".data.count '/') = 2 from by decide]

end OktaSuspend
